import Mathlib

/-!
Shallow embedding of the `skrl` base-agent slice:
  * `src/skrl/agents/base.py` — the abstract `Agent` base class, and
  * `src/tests/test_examples_isaac_orbit.py` — the Isaac Orbit example test.

Side effects (TensorBoard scalar logging, calls into the external model
objects, warnings, subprocess launches) are made explicit as returned
traces; methods that may raise return `Except PyError`.
-/

deriving instance DecidableEq for Except

namespace Skrl

/-- An environment handle (`skrl.env.Environment` or `gym.Env`). External
collaborator: only its identity matters to the base class, so it is a
bare id-carrier. -/
structure Env where
  id : Nat
deriving DecidableEq

/-- A network (`skrl.models.torch.Model`). External collaborator: only its
identity matters here; its mode switch is recorded in the call trace of
`Agent.set_mode` (the mutation happens inside the external object, not in
any field of the agent). -/
structure Model where
  id : Nat
deriving DecidableEq

/-- A transition memory (`skrl.memories.Memory`). External collaborator,
bare id-carrier. -/
structure Memory where
  id : Nat
deriving DecidableEq

/-- A Python value that can appear in the configuration dictionary:
`None`, a string, or a `torch.device`. -/
inductive PyVal
  | pyNone
  | str (s : String)
  | device (name : String)
deriving DecidableEq

/-- Extract the string from a `PyVal`, as `os.path.join` requires string
(path-like) arguments. -/
def PyVal.asStr : PyVal → Option String
  | .str s => some s
  | _ => none

/-- Python exceptions raised by this slice. -/
inductive PyError
  | notImplementedError
  | typeError
deriving DecidableEq

/-- The configuration dictionary `cfg : dict`, as an association list with
Python dict lookup (`cfg.get(k)` returns the stored value or is absent). -/
def cfgGet (cfg : List (String × PyVal)) (k : String) : Option PyVal :=
  (cfg.find? (fun kv => kv.1 = k)).map (fun kv => kv.2)

/-- Whether a path string is absolute (begins with the separator). -/
def strIsAbs (s : String) : Bool :=
  match s.data with
  | [] => false
  | c :: _ => c == '/'

/-- Whether a path string already ends with the separator. -/
def strEndsSlash (s : String) : Bool :=
  match s.data.getLast? with
  | some c => c == '/'
  | none => false

/-- `os.path.join` for two components: the right component wins when
absolute, otherwise a single separator is inserted. -/
def pathJoin (a b : String) : String :=
  if strIsAbs b then b
  else if a = "" then b
  else if strEndsSlash a then a ++ b
  else a ++ "/" ++ b

/-- A `torch.Tensor` of scalar rewards, modeled as a nonempty list of
rationals (one reward per environment; the reduction ops `torch.max`,
`torch.min`, `torch.mean` used on it require a nonempty tensor). -/
structure Tensor where
  hd : Rat
  tl : List Rat
deriving DecidableEq

/-- `torch.max(t).item()`. -/
def Tensor.torchMax (t : Tensor) : Rat := t.tl.foldl max t.hd

/-- `torch.min(t).item()`. -/
def Tensor.torchMin (t : Tensor) : Rat := t.tl.foldl min t.hd

/-- `torch.mean(t).item()`, modeled over the rationals. -/
def Tensor.torchMean (t : Tensor) : Rat :=
  (t.hd + t.tl.sum) / (1 + t.tl.length)

/-- One `writer.add_scalar(tag, value, step)` record sent to the
TensorBoard `SummaryWriter` sink. -/
structure ScalarLog where
  tag : String
  value : Rat
  step : Int
deriving DecidableEq

/-- Ambient inputs read by `Agent.__init__` from the outside world:
`torch.cuda.is_available()`, `os.getcwd()`, the formatted
`datetime.datetime.now()` timestamp, and `self.__class__.__name__`. -/
structure Ambient where
  cudaAvailable : Bool
  cwd : String
  nowStr : String
  className : String
deriving DecidableEq

/-- The base RL agent. The first four fields are the constructor
arguments stored verbatim; `device`, `experiment_dir` and the writer are
computed during `__init__`. The `SummaryWriter` is an external sink
identified by the directory it was created over (`writerDir`). -/
structure Agent where
  env : Env
  networks : List (String × Model)
  memory : Option Memory
  cfg : List (String × PyVal)
  device : PyVal
  experiment_dir : String
  writerDir : String
deriving DecidableEq

/-- `self.device = self.cfg.get("device", None)`; when that is `None`,
`torch.device("cuda" if torch.cuda.is_available() else "cpu")`. -/
def deviceOf (cfg : List (String × PyVal)) (amb : Ambient) : PyVal :=
  match (cfgGet cfg "device").getD PyVal.pyNone with
  | .pyNone => PyVal.device (if amb.cudaAvailable then "cuda" else "cpu")
  | v => v

/-- `log_dir = self.cfg.get("log_dir", os.path.join(os.getcwd(), "runs"))`. -/
def logDirValOf (cfg : List (String × PyVal)) (amb : Ambient) : PyVal :=
  (cfgGet cfg "log_dir").getD (PyVal.str (pathJoin amb.cwd "runs"))

/-- `experiment_name = self.cfg.get("experiment_name", now_timestamp + "_" + class_name)`
(the default is the Python format string joining the timestamp and the
class name with an underscore). -/
def experimentNameValOf (cfg : List (String × PyVal)) (amb : Ambient) : PyVal :=
  (cfgGet cfg "experiment_name").getD (PyVal.str (amb.nowStr ++ "_" ++ amb.className))

/-- `Agent.__init__(env, networks, memory=None, cfg={})`: stores the four
arguments, resolves the device, computes
`self.experiment_dir = os.path.join(log_dir, experiment_name)` and creates
the `SummaryWriter` over it. `os.path.join` raises `TypeError` when handed
a non-string (e.g. a configured `log_dir` of `None`). The Python default
for the `memory` parameter is `None`; callers omitting it pass `none`. -/
def Agent.init (env : Env) (networks : List (String × Model)) (memory : Option Memory)
    (cfg : List (String × PyVal)) (amb : Ambient) : Except PyError Agent :=
  match (logDirValOf cfg amb).asStr, (experimentNameValOf cfg amb).asStr with
  | some ld, some en =>
      Except.ok { env := env, networks := networks, memory := memory, cfg := cfg,
                  device := deviceOf cfg amb,
                  experiment_dir := pathJoin ld en,
                  writerDir := pathJoin ld en }
  | _, _ => Except.error PyError.typeError

/-- `Agent.act(states, inference=False, timestep=None, timesteps=None)`:
the body is `raise NotImplementedError`, so the call fails before touching
any state; the pair returns the outcome together with the (unchanged)
agent. Defaults (`inference=False`, `timestep=None`, `timesteps=None`) are
passed explicitly by callers of the embedding. -/
def Agent.act (a : Agent) (states : Tensor) (inference : Bool)
    (timestep timesteps : Option Int) : Except PyError Tensor × Agent :=
  (Except.error PyError.notImplementedError, a)

/-- `Agent.record_transition(states, actions, rewards, next_states, dones,
timestep, timesteps)`: three `writer.add_scalar` calls with the max, min
and mean of `rewards` at step `timestep`, and nothing else (the
`raise NotImplementedError` line is commented out in the source). Returns
the agent after the call together with the emitted log records. -/
def Agent.record_transition (a : Agent) (states actions rewards next_states dones : Tensor)
    (timestep timesteps : Int) : Agent × List ScalarLog :=
  (a, [{ tag := "Instantaneous reward/max", value := rewards.torchMax, step := timestep },
       { tag := "Instantaneous reward/min", value := rewards.torchMin, step := timestep },
       { tag := "Instantaneous reward/mean", value := rewards.torchMean, step := timestep }])

/-- `Agent.set_mode(mode)`: `for k in self.networks: self.networks[k].set_mode(mode)`.
The trace lists one `(key, mode)` entry per call into the external model
objects, in dict iteration order; the models are mutated internally, so no
field of the agent itself changes (the dict still holds the same
references). -/
def Agent.set_mode (a : Agent) (mode : String) : Agent × List (String × String) :=
  (a, a.networks.map (fun kv => (kv.1, mode)))

/-- `Agent.pre_interaction(timestep, timesteps)`: body is `pass`; returns
`None`, logging nothing and leaving the agent unchanged. -/
def Agent.pre_interaction (a : Agent) (timestep timesteps : Int) : Agent × List ScalarLog :=
  (a, [])

/-- `Agent.post_interaction(timestep, timesteps)`: body is `pass`; returns
`None`, logging nothing and leaving the agent unchanged. -/
def Agent.post_interaction (a : Agent) (timestep timesteps : Int) : Agent × List ScalarLog :=
  (a, [])

/-! Embedding of `src/tests/test_examples_isaac_orbit.py`. -/

/-- `PYTHON_ENVIRONMENT = "orbit -p"`. -/
def PYTHON_ENVIRONMENT : String := "orbit -p"

/-- `EXAMPLE_DIR = "isaacorbit"`. -/
def EXAMPLE_DIR : String := "isaacorbit"

/-- `SCRIPTS = ["ppo_cartpole.py"]`. -/
def SCRIPTS : List String := ["ppo_cartpole.py"]

/-- `COMMANDS`, parametrized by the resolved absolute `EXAMPLES_DIR`
(computed in the source from the test file location). Each command is the
f-string joining the python environment, the script path and the headless
flags. -/
def COMMANDS (examplesDir : String) : List String :=
  SCRIPTS.map (fun script =>
    PYTHON_ENVIRONMENT ++ " " ++ pathJoin (pathJoin examplesDir EXAMPLE_DIR) script
      ++ " --headless --num_envs 64")

/-- Observable actions of the test body: a `warnings.warn` call or a
`subprocess.run(command, shell=True, check=True)` launch (the two booleans
are the `shell` and `check` keyword arguments). -/
inductive TestAction
  | warn (msg : String)
  | runSubprocess (cmd : String) (shell : Bool) (check : Bool)
deriving DecidableEq

/-- The warning text emitted when `omni.isaac.kit` cannot be imported,
with `e` the `ImportError` message interpolated by the f-string. -/
def warnMsg (e : String) : String :=
  "\n\nUnable to import omni.isaac.kit (" ++ e ++ ").\nThis test will be skipped\n"

/-- `test_scripts(capsys, command)`: tries `from omni.isaac.kit import
SimulationApp`; on `ImportError` (modeled as `some e` with `e` the error
message) it warns and returns, otherwise it launches the command as a
checked shell subprocess. -/
def test_scripts (importErr : Option String) (command : String) : List TestAction :=
  match importErr with
  | some e => [TestAction.warn (warnMsg e)]
  | none => [TestAction.runSubprocess command true true]

/-! Concrete sample values used by the witnesses. -/

/-- A sample environment. -/
def envW : Env := { id := 0 }

/-- A sample model. -/
def modelW : Model := { id := 7 }

/-- A sample ambient world without CUDA. -/
def ambW : Ambient :=
  { cudaAvailable := false, cwd := "/work", nowStr := "23-01-01_00-00-00", className := "Agent" }

/-- The same ambient world with CUDA available. -/
def ambCudaW : Ambient :=
  { cudaAvailable := true, cwd := "/work", nowStr := "23-01-01_00-00-00", className := "Agent" }

/-- A sample configuration supplying both `log_dir` and `experiment_name`. -/
def cfgW : List (String × PyVal) :=
  [("log_dir", PyVal.str "/logs"), ("experiment_name", PyVal.str "exp")]

/-- The agent produced by `Agent.init envW [("policy", modelW)] none cfgW ambW`. -/
def agentW : Agent :=
  { env := envW, networks := [("policy", modelW)], memory := none, cfg := cfgW,
    device := PyVal.device "cpu", experiment_dir := "/logs/exp", writerDir := "/logs/exp" }

/-- The agent produced by `Agent.init envW [("policy", modelW)] none [] ambW`
(empty configuration: every default applies). -/
def agentNoCfgW : Agent :=
  { env := envW, networks := [("policy", modelW)], memory := none, cfg := [],
    device := PyVal.device "cpu",
    experiment_dir := "/work/runs/23-01-01_00-00-00_Agent",
    writerDir := "/work/runs/23-01-01_00-00-00_Agent" }

/-! The claims. -/

/-- C1: `record_transition` performs only the logging side effect: it
emits exactly the three scalars max, min and mean of `rewards`, keyed by
the instantaneous-reward tags and by `timestep`, and it neither stores the
transition in the optional memory nor modifies any field of the agent. -/
theorem c1_record_transition_only_logs (a : Agent)
    (states actions rewards next_states dones : Tensor) (timestep timesteps : Int) :
    (a.record_transition states actions rewards next_states dones timestep timesteps).1 = a ∧
    (a.record_transition states actions rewards next_states dones timestep timesteps).1.memory
      = a.memory ∧
    (a.record_transition states actions rewards next_states dones timestep timesteps).2 =
      [{ tag := "Instantaneous reward/max", value := rewards.torchMax, step := timestep },
       { tag := "Instantaneous reward/min", value := rewards.torchMin, step := timestep },
       { tag := "Instantaneous reward/mean", value := rewards.torchMean, step := timestep }] :=
  ⟨rfl, rfl, rfl⟩

/-- C2: `act` always fails immediately with `NotImplementedError`, for any
combination of arguments, and the agent is unchanged by the failed call. -/
theorem c2_act_not_implemented (a : Agent) (states : Tensor) (inference : Bool)
    (timestep timesteps : Option Int) :
    a.act states inference timestep timesteps =
      (Except.error PyError.notImplementedError, a) :=
  rfl

/-- C3: `set_mode mode` calls `networks[k].set_mode(mode)` exactly once
for each key `k`, in iteration order (the call trace is exactly one
`(k, mode)` entry per key), and changes nothing else on the agent. -/
theorem c3_set_mode_forwards_once_per_key (a : Agent) (mode : String) :
    (a.set_mode mode).2 = a.networks.map (fun kv => (kv.1, mode)) ∧
    (a.set_mode mode).1 = a :=
  ⟨rfl, rfl⟩

/-- C4: after construction the agent's `env`, `networks`, `memory` and
`cfg` fields are exactly the references passed in (the Python default for
`memory` is `None`, i.e. `none` here). -/
theorem c4_init_stores_arguments (env : Env) (networks : List (String × Model))
    (memory : Option Memory) (cfg : List (String × PyVal)) (amb : Ambient) (a : Agent)
    (h : Agent.init env networks memory cfg amb = Except.ok a) :
    a.env = env ∧ a.networks = networks ∧ a.memory = memory ∧ a.cfg = cfg := by
  unfold Agent.init at h
  split at h
  · cases h; exact ⟨rfl, rfl, rfl, rfl⟩
  · cases h

/-- Witness for C4 at a concrete input. -/
theorem c4_witness :
    agentW.env = envW ∧ agentW.networks = [("policy", modelW)] ∧
    agentW.memory = none ∧ agentW.cfg = cfgW :=
  c4_init_stores_arguments envW [("policy", modelW)] none cfgW ambW agentW (by decide)

/-- C5 counterexample: construction is not plain aggregation of the
arguments; with identical arguments, two worlds differing only in CUDA
availability produce different agents (the derived `device` field
differs), so state beyond the passed references is derived. -/
theorem c5_counterexample :
    Agent.init envW [("policy", modelW)] none [] ambW ≠
      Agent.init envW [("policy", modelW)] none [] ambCudaW := by
  decide

/-- C5 (amended): construction stores the four given references verbatim,
but additionally derives a `device` from `cfg` and CUDA availability, an
`experiment_dir` from `cfg`, the working directory and the current time,
and a writer over exactly that directory; nothing else is derived. -/
theorem c5_amended_aggregation_plus_derived (env : Env) (networks : List (String × Model))
    (memory : Option Memory) (cfg : List (String × PyVal)) (amb : Ambient) (a : Agent)
    (h : Agent.init env networks memory cfg amb = Except.ok a) :
    a.env = env ∧ a.networks = networks ∧ a.memory = memory ∧ a.cfg = cfg ∧
    a.device = deviceOf cfg amb ∧
    (∃ ld en, (logDirValOf cfg amb).asStr = some ld ∧
      (experimentNameValOf cfg amb).asStr = some en ∧
      a.experiment_dir = pathJoin ld en) ∧
    a.writerDir = a.experiment_dir := by
  unfold Agent.init at h
  split at h
  case _ ld en hld hen =>
    cases h
    exact ⟨rfl, rfl, rfl, rfl, rfl, ⟨ld, en, hld, hen, rfl⟩, rfl⟩
  case _ => cases h

/-- Witness for the amended C5 at a concrete input. -/
theorem c5_amended_witness :
    agentNoCfgW.env = envW ∧ agentNoCfgW.networks = [("policy", modelW)] ∧
    agentNoCfgW.memory = none ∧ agentNoCfgW.cfg = [] ∧
    agentNoCfgW.device = deviceOf [] ambW ∧
    (∃ ld en, (logDirValOf [] ambW).asStr = some ld ∧
      (experimentNameValOf [] ambW).asStr = some en ∧
      agentNoCfgW.experiment_dir = pathJoin ld en) ∧
    agentNoCfgW.writerDir = agentNoCfgW.experiment_dir :=
  c5_amended_aggregation_plus_derived envW [("policy", modelW)] none [] ambW agentNoCfgW
    (by decide)

/-- C6: the `pre_interaction` and `post_interaction` hooks are no-ops:
for every agent and every `(timestep, timesteps)` each returns `None`
(here: no result beyond the state), emits nothing, and leaves every field
of the agent unchanged. -/
theorem c6_hooks_are_noops (a : Agent) (timestep timesteps : Int) :
    a.pre_interaction timestep timesteps = (a, []) ∧
    a.post_interaction timestep timesteps = (a, []) :=
  ⟨rfl, rfl⟩

/-- C7: for every command of the parametrized list, the test launches the
command as a checked shell subprocess when `omni.isaac.kit` imports, and
on `ImportError` it only warns and returns, launching no subprocess. -/
theorem c7_test_scripts_behavior (dir cmd : String) (h : cmd ∈ COMMANDS dir) :
    test_scripts none cmd = [TestAction.runSubprocess cmd true true] ∧
    ∀ e, test_scripts (some e) cmd = [TestAction.warn (warnMsg e)] :=
  ⟨rfl, fun e => rfl⟩

/-- The single concrete command the test is parametrized with, for an
examples directory resolved to `/x`. -/
def cmdW : String := "orbit -p /x/isaacorbit/ppo_cartpole.py --headless --num_envs 64"

/-- Witness for C7 at the concrete parametrized command. -/
theorem c7_witness :
    cmdW ∈ COMMANDS "/x" ∧
    (test_scripts none cmdW = [TestAction.runSubprocess cmdW true true] ∧
     ∀ e, test_scripts (some e) cmdW = [TestAction.warn (warnMsg e)]) :=
  ⟨by decide, c7_test_scripts_behavior "/x" cmdW (by decide)⟩

/-- C8: the device field after construction: when `cfg` has no `device`
entry or maps it to `None`, the device is the CUDA device when available
and the CPU device otherwise; a supplied non-`None` value is used
unchanged. -/
theorem c8_device_resolution (env : Env) (networks : List (String × Model))
    (memory : Option Memory) (cfg : List (String × PyVal)) (amb : Ambient) (a : Agent)
    (h : Agent.init env networks memory cfg amb = Except.ok a) :
    ((cfgGet cfg "device" = none ∨ cfgGet cfg "device" = some PyVal.pyNone) →
      a.device = PyVal.device (if amb.cudaAvailable then "cuda" else "cpu")) ∧
    (∀ v, cfgGet cfg "device" = some v → v ≠ PyVal.pyNone → a.device = v) := by
  have hdev : a.device = deviceOf cfg amb := by
    unfold Agent.init at h
    split at h
    · cases h; rfl
    · cases h
  constructor
  · intro hc
    rw [hdev]; unfold deviceOf
    rcases hc with hc | hc <;> rw [hc] <;> rfl
  · intro v hv hne
    rw [hdev]; unfold deviceOf; rw [hv]
    cases v with
    | pyNone => exact absurd rfl hne
    | str s => rfl
    | device n => rfl

/-- Witness for C8: with an empty configuration and CUDA unavailable the
device resolves to the CPU device. -/
theorem c8_witness : agentNoCfgW.device = PyVal.device "cpu" :=
  (c8_device_resolution envW [("policy", modelW)] none [] ambW agentNoCfgW (by decide)).1
    (Or.inl rfl)

/-- C9: when `cfg` supplies both `log_dir` and `experiment_name`, the
constructed agent's `experiment_dir` is their path join and the writer is
created over exactly that directory; when `log_dir` is absent it defaults
to `<cwd>/runs`. -/
theorem c9_experiment_dir_join (env : Env) (networks : List (String × Model))
    (memory : Option Memory) (cfg : List (String × PyVal)) (amb : Ambient) :
    (∀ ld en a, cfgGet cfg "log_dir" = some (PyVal.str ld) →
      cfgGet cfg "experiment_name" = some (PyVal.str en) →
      Agent.init env networks memory cfg amb = Except.ok a →
      a.experiment_dir = pathJoin ld en ∧ a.writerDir = pathJoin ld en) ∧
    (∀ en a, cfgGet cfg "log_dir" = none →
      cfgGet cfg "experiment_name" = some (PyVal.str en) →
      Agent.init env networks memory cfg amb = Except.ok a →
      a.experiment_dir = pathJoin (pathJoin amb.cwd "runs") en) := by
  constructor
  · intro ld en a hl he h
    unfold Agent.init logDirValOf experimentNameValOf at h
    rw [hl, he] at h
    cases h
    exact ⟨rfl, rfl⟩
  · intro en a hl he h
    unfold Agent.init logDirValOf experimentNameValOf at h
    rw [hl, he] at h
    cases h
    rfl

/-- Witness for C9 at a concrete configuration supplying both entries. -/
theorem c9_witness :
    agentW.experiment_dir = pathJoin "/logs" "exp" ∧
    agentW.writerDir = pathJoin "/logs" "exp" :=
  (c9_experiment_dir_join envW [("policy", modelW)] none cfgW ambW).1 "/logs" "exp" agentW
    (by decide) (by decide) (by decide)

/-- C10: `set_mode` validates nothing: any string whatsoever, not only
`train` or `eval`, is forwarded verbatim to every model, and no error is
raised (the embedding is a total function). -/
theorem c10_set_mode_no_validation (a : Agent) (mode : String)
    (h1 : mode ≠ "train") (h2 : mode ≠ "eval") :
    (a.set_mode mode).2 = a.networks.map (fun kv => (kv.1, mode)) :=
  rfl

/-- Witness for C10 with a mode string that is neither `train` nor `eval`. -/
theorem c10_witness :
    ("banana" : String) ≠ "train" ∧ ("banana" : String) ≠ "eval" ∧
    (agentW.set_mode "banana").2 = agentW.networks.map (fun kv => (kv.1, "banana")) :=
  ⟨by decide, by decide, c10_set_mode_no_validation agentW "banana" (by decide) (by decide)⟩

end Skrl
